import Mathlib

/-!
# Verification of the ESP8266 Spotify player core

A shallow embedding, in Lean 4, of the decision logic of the
`ESP8266_spotify_player` firmware: the `SpotifyClient` HTTP-outcome
predicates, credential handling, JSON scanning, device discovery,
the `playUri` recovery protocol, the device-list parser, and the
application state machine of `main.cpp`.  Arduino `String` values are
modelled as Lean `String` (when opaque) or `List Char` (when the code
scans them character by character); `millis()` timestamps are natural
numbers reduced modulo 2^32 exactly where the C++ unsigned arithmetic
does so.
-/

namespace ESP8266SpotifyPlayer

/-! ## Configuration constants (include/Config.h) -/

def STATE_MACHINE_INTERVAL : Nat := 10

def LED_FEEDBACK_DURATION : Nat := 2000

def SPOTIFY_INIT_TIMEOUT : Nat := 30000

def NFC_DEBOUNCE_TIME : Nat := 500

/-- Modulus of the 32-bit `unsigned long` used by `millis()`. -/
def UINT32_MOD : Nat := 2 ^ 32

/-- `now - start` computed in 32-bit unsigned arithmetic, as the C++
expression `millis() - startTime` does. -/
def elapsed32 (now start : Nat) : Nat :=
  (now % UINT32_MOD + (UINT32_MOD - start % UINT32_MOD)) % UINT32_MOD

/-! ## HttpResult (include/SpotifyClient.h, lines 23-57) -/

/-- HTTP response container: status code (`int`, negative for library
transport errors) and body. -/
structure HttpResult where
  httpCode : Int
  payload : List Char
deriving Repr, DecidableEq

def HttpResult.isSuccess (r : HttpResult) : Bool :=
  200 ≤ r.httpCode && r.httpCode < 300

def HttpResult.isUnauthorized (r : HttpResult) : Bool :=
  r.httpCode == 401

def HttpResult.isNotFound (r : HttpResult) : Bool :=
  r.httpCode == 404

def HttpResult.isRateLimited (r : HttpResult) : Bool :=
  r.httpCode == 429

def HttpResult.isServerError (r : HttpResult) : Bool :=
  500 ≤ r.httpCode && r.httpCode < 600

def HttpResult.shouldRetry (r : HttpResult) : Bool :=
  r.isRateLimited || r.isServerError || r.httpCode == -1

/-! ## Client credential state (src/SpotifyClient.cpp, lines 31-51) -/

/-- The `String` members of `SpotifyClient`. -/
structure ClientState where
  clientId_ : String
  clientSecret_ : String
  refreshToken_ : String
  accessToken_ : String
  deviceName_ : String
  deviceId_ : String
deriving Repr, DecidableEq

/-- `SpotifyClient::setCredentials` (SpotifyClient.cpp lines 31-44):
stores the four credential fields and clears the cached access token
and device id. -/
def setCredentials (st : ClientState)
    (clientId clientSecret deviceName refreshToken : String) : ClientState :=
  { st with
    clientId_ := clientId
    clientSecret_ := clientSecret
    deviceName_ := deviceName
    refreshToken_ := refreshToken
    accessToken_ := ""
    deviceId_ := "" }

/-- `SpotifyClient::hasCredentials` (SpotifyClient.cpp lines 46-51). -/
def hasCredentials (st : ClientState) : Bool :=
  !(st.clientId_ = "") && !(st.clientSecret_ = "") &&
  !(st.refreshToken_ = "") && !(st.deviceName_ = "")

/-! ## Arduino String scanning primitives

The client parses JSON by hand with `String::indexOf` and
`String::charAt`.  We model the underlying character buffer as a
`List Char`; `charAt` out of range is never consulted (every loop is
guarded by a length check), so `List.getD` with a default is exact. -/

/-- `String::indexOf(needle)`: index of the first occurrence of
`needle` as a contiguous substring of `hay`, if any. -/
def subIndexOf (hay needle : List Char) : Option Nat :=
  (List.range (hay.length + 1)).find? (fun i => (hay.drop i).take needle.length == needle)

/-- `String::indexOf(c, start)`: index of the first occurrence of the
character `c` at position ≥ `start`, if any. -/
def charIndexOfFrom (hay : List Char) (c : Char) (start : Nat) : Option Nat :=
  (List.range hay.length).find? (fun i => decide (start ≤ i) && (hay.getD i ' ' == c))

/-!
Each character-scanning loop of the C++ advances its index by at least
one per iteration and exits once the index reaches the length of the
string, so it runs at most `json.length + 1` iterations.  We embed the
loops structurally on a fuel argument and always supply the sufficient
fuel `json.length + 1`, making every definition reduce by evaluation. -/

/-- Skip the run of spaces and tabs after the colon
(`SpotifyClient::parseJsonValue`, SpotifyClient.cpp lines 379-382). -/
def skipSpaces (json : List Char) : Nat → Nat → Nat
  | 0, i => i
  | fuel + 1, i =>
    if i < json.length then
      if json.getD i ' ' = ' ' ∨ json.getD i ' ' = '\t' then skipSpaces json fuel (i + 1)
      else i
    else i

/-- Collect the characters of a quoted JSON value until an unescaped
closing quote (`SpotifyClient::parseJsonValue`, lines 387-397). -/
def collectQuoted (json : List Char) (valueStart : Nat) : Nat → Nat → List Char
  | 0, _ => []
  | fuel + 1, i =>
    if i < json.length then
      let c := json.getD i ' '
      if c = '"' ∧ (i = valueStart ∨ json.getD (i - 1) ' ' ≠ '\\') then []
      else c :: collectQuoted json valueStart fuel (i + 1)
    else []

/-- Collect the characters of an unquoted JSON value until a
terminator (`SpotifyClient::parseJsonValue`, lines 398-407). -/
def collectUnquoted (json : List Char) : Nat → Nat → List Char
  | 0, _ => []
  | fuel + 1, i =>
    if i < json.length then
      let c := json.getD i ' '
      if c = ',' ∨ c = '\x7d' ∨ c = ']' ∨ c = ' ' ∨ c = '\n' ∨ c = '\r' then []
      else c :: collectUnquoted json fuel (i + 1)
    else []

/-- `SpotifyClient::parseJsonValue` (SpotifyClient.cpp lines 363-410):
scan for `"key"`, find the colon after it, skip blanks, then extract a
quoted or unquoted value; any failure yields the empty string. -/
def parseJsonValue (key json : List Char) : List Char :=
  let searchPattern := '"' :: (key ++ ['"'])
  match subIndexOf json searchPattern with
  | none => []
  | some index =>
    match charIndexOfFrom json ':' index with
    | none => []
    | some colonPos =>
      let valueStart := skipSpaces json (json.length + 1) (colonPos + 1)
      if valueStart ≥ json.length then []
      else if json.getD valueStart ' ' = '"' then
        collectQuoted json (valueStart + 1) (json.length + 1) (valueStart + 1)
      else collectUnquoted json (json.length + 1) valueStart

/-! ## extractDeviceId (SpotifyClient.cpp, lines 412-466) -/

/-- Back up from the device-name hit to the nearest opening brace
(lines 421-427): decrement while the index is positive, stopping at a
brace; position 0 is returned without inspecting it. -/
def backUpToBrace (json : List Char) : Nat → Nat
  | 0 => 0
  | k + 1 => if json.getD (k + 1) ' ' = '\x7b' then k + 1 else backUpToBrace json k

/-- Scan forward for the four-character pattern `"id"` inside the
object, stopping at a closing brace (lines 429-446).  On a hit the
index just past the pattern is returned; otherwise the index of the
brace (or the length). -/
def findIdKey (json : List Char) : Nat → Nat → Nat
  | 0, i => i
  | fuel + 1, i =>
    if i < json.length then
      if json.getD i ' ' = '\x7d' then i
      else if i + 3 < json.length ∧ json.getD i ' ' = '"' ∧ json.getD (i + 1) ' ' = 'i' ∧
          json.getD (i + 2) ' ' = 'd' ∧ json.getD (i + 3) ' ' = '"' then i + 4
      else findIdKey json fuel (i + 1)
    else i

/-- Advance past the next double quote (lines 448-454). -/
def skipToQuote (json : List Char) : Nat → Nat → Nat
  | 0, i => i
  | fuel + 1, i =>
    if i < json.length then
      if json.getD i ' ' = '"' then i + 1 else skipToQuote json fuel (i + 1)
    else i

/-- Copy characters up to the closing quote (lines 456-463). -/
def collectId (json : List Char) : Nat → Nat → List Char
  | 0, _ => []
  | fuel + 1, i =>
    if i < json.length then
      let c := json.getD i ' '
      if c = '"' then [] else c :: collectId json fuel (i + 1)
    else []

/-- `SpotifyClient::extractDeviceId` (SpotifyClient.cpp lines 412-466):
find the first occurrence of the configured device name anywhere in
the body, back up to the enclosing brace, locate the `"id"` key and
copy its quoted value; empty when the name does not occur. -/
def extractDeviceId (deviceName json : List Char) : List Char :=
  match subIndexOf json deviceName with
  | none => []
  | some nameIndex =>
    let objectStart := backUpToBrace json nameIndex
    let afterKey := findIdKey json (json.length + 1) objectStart
    let valueStart := skipToQuote json (json.length + 1) afterKey
    collectId json (json.length + 1) valueStart

/-! ## Client operations (SpotifyClient.cpp)

The network itself is external: each embedded operation takes the
`HttpResult` the corresponding HTTP request would produce.  `playUri`
issues up to four requests (first play, device list during
rediscovery, token fetch, retried play, shuffle), so it receives an
environment holding one prescribed outcome per request site, and
additionally reports how many calls of each kind it issued. -/

/-- `SpotifyClient::fetchAccessToken` (SpotifyClient.cpp lines 71-105),
given the outcome of the token POST: on any non-200 code fail without
touching state; on 200 store `parseJsonValue "access_token"` of the
body and fail exactly when it is empty. -/
def fetchAccessToken (st : ClientState) (r : HttpResult) : Bool × ClientState :=
  if r.httpCode ≠ 200 then (false, st)
  else
    let tok := String.mk (parseJsonValue "access_token".data r.payload)
    let st' := { st with accessToken_ := tok }
    if tok = "" then (false, st') else (true, st')

/-- `SpotifyClient::discoverDevice` (SpotifyClient.cpp lines 107-128),
given the outcome of the device-list GET: on non-success fail leaving
the cached id untouched; otherwise overwrite the cached id with
`extractDeviceId` of the body and fail exactly when that is empty. -/
def discoverDevice (st : ClientState) (r : HttpResult) : Bool × ClientState :=
  if !r.isSuccess then (false, st)
  else
    let id := String.mk (extractDeviceId st.deviceName_.data r.payload)
    let st' := { st with deviceId_ := id }
    if id = "" then (false, st') else (true, st')

/-- Prescribed outcomes for the individual HTTP requests `playUri` can
issue. -/
structure PlayEnv where
  firstPlay : HttpResult
  devicesResult : HttpResult
  tokenResult : HttpResult
  retryPlay : HttpResult
  shuffleResult : HttpResult
deriving Repr, DecidableEq

/-- Number of requests of each kind issued during one `playUri` run. -/
structure CallCounts where
  playCalls : Nat
  discoverCalls : Nat
  tokenFetches : Nat
  shuffleCalls : Nat
deriving Repr, DecidableEq

/-- Shared epilogue of `SpotifyClient::playUri` (lines 153-161): on a
success outcome call `enableShuffle` once and return true; otherwise
return false with no shuffle call. -/
def playUriFinish (st : ClientState) (result : HttpResult) (counts : CallCounts) :
    Bool × ClientState × CallCounts :=
  if result.isSuccess then
    (true, st, { counts with shuffleCalls := counts.shuffleCalls + 1 })
  else (false, st, counts)

/-- `SpotifyClient::playUri` (SpotifyClient.cpp lines 130-162): issue
the play PUT; on 404 rediscover the device and, only if rediscovery
succeeded, retry the play once; on 401 refresh the token and, only if
that succeeded, retry the play once; finally report success of the
last outcome held in `result`, enabling shuffle only on success. -/
def playUri (st : ClientState) (env : PlayEnv) : Bool × ClientState × CallCounts :=
  let result := env.firstPlay
  if result.isNotFound then
    let d := discoverDevice st env.devicesResult
    if d.1 then
      playUriFinish d.2 env.retryPlay
        { playCalls := 2, discoverCalls := 1, tokenFetches := 0, shuffleCalls := 0 }
    else
      playUriFinish d.2 result
        { playCalls := 1, discoverCalls := 1, tokenFetches := 0, shuffleCalls := 0 }
  else if result.isUnauthorized then
    let f := fetchAccessToken st env.tokenResult
    if f.1 then
      playUriFinish f.2 env.retryPlay
        { playCalls := 2, discoverCalls := 0, tokenFetches := 1, shuffleCalls := 0 }
    else
      playUriFinish f.2 result
        { playCalls := 1, discoverCalls := 0, tokenFetches := 1, shuffleCalls := 0 }
  else
    playUriFinish st result
      { playCalls := 1, discoverCalls := 0, tokenFetches := 0, shuffleCalls := 0 }

/-- The outcome of the last play request of a `playUri` run — the
value of the C++ local `result` at line 153. -/
def playUriFinalOutcome (st : ClientState) (env : PlayEnv) : HttpResult :=
  let result := env.firstPlay
  if result.isNotFound then
    if (discoverDevice st env.devicesResult).1 then env.retryPlay else result
  else if result.isUnauthorized then
    if (fetchAccessToken st env.tokenResult).1 then env.retryPlay else result
  else result

/-! ## Retry wrapper -/

/-- Modelled from the spec: `callApiWithRetry` is declared in
`include/SpotifyClient.h` (line 267) but no definition of it exists in
the sources — only `callApi` is implemented.  Following §4.2 of the
specification: execute the request; if the outcome is success or not
retryable, return immediately; if retryable and attempts remain, wait
for the backoff delay and retry; after exhausting the retries return
the last outcome as-is.  `outcomes k` is the result of the `k`-th
underlying call; `remaining` counts the retries still allowed; the
returned `Nat` is the number of underlying calls issued. -/
def callApiWithRetryAux (outcomes : Nat → HttpResult) :
    Nat → Nat → HttpResult × Nat
  | attempt, 0 => (outcomes attempt, attempt + 1)
  | attempt, remaining + 1 =>
    let r := outcomes attempt
    if r.isSuccess ∨ ¬r.shouldRetry then (r, attempt + 1)
    else callApiWithRetryAux outcomes (attempt + 1) remaining

/-- Modelled from the spec: the retry wrapper entry point with
`max_retries = maxRetries`, starting at attempt 0. -/
def callApiWithRetry (outcomes : Nat → HttpResult) (maxRetries : Nat) : HttpResult × Nat :=
  callApiWithRetryAux outcomes 0 maxRetries

/-! ## getAvailableDevices (SpotifyClient.cpp, lines 202-254) -/

/-- Device record filled by `getAvailableDevices`
(include/SpotifyClient.h, lines 62-69). -/
structure SpotifyDevice where
  id : List Char
  name : List Char
  type : List Char
  isActive : Bool
  isRestricted : Bool
deriving Repr, DecidableEq

/-- Field extraction for one `\x7b...\x7d` device object
(SpotifyClient.cpp lines 234-244). -/
def parseDeviceObj (deviceObj : List Char) : SpotifyDevice :=
  { id := parseJsonValue "id".data deviceObj
    name := parseJsonValue "name".data deviceObj
    type := parseJsonValue "type".data deviceObj
    isActive := parseJsonValue "is_active".data deviceObj == "true".data
    isRestricted := parseJsonValue "is_restricted".data deviceObj == "true".data }

/-- The scanning loop of `getAvailableDevices` (lines 224-251).  Each
iteration finds the next brace-delimited object, writes the parsed
device into slot `deviceCount` of the caller's array, and increments
the count exactly when the parsed id is non-empty.  The returned list
logs every array write as an (index, value) pair, in order.  Each
iteration moves `pos` past a closing brace found at a position below
`json.length`, so the loop runs at most `json.length + 1` iterations;
it is embedded on a fuel argument and invoked with that bound. -/
def devicesLoop (json : List Char) (maxDevices : Nat) :
    Nat → Nat → Nat → Nat × List (Nat × SpotifyDevice)
  | 0, _, deviceCount => (deviceCount, [])
  | fuel + 1, pos, deviceCount =>
    if deviceCount < maxDevices then
      match charIndexOfFrom json '\x7b' pos with
      | none => (deviceCount, [])
      | some objStart =>
        match charIndexOfFrom json '\x7d' objStart with
        | none => (deviceCount, [])
        | some objEnd =>
          let deviceObj := (json.take (objEnd + 1)).drop objStart
          let d := parseDeviceObj deviceObj
          let next :=
            if d.id ≠ [] then devicesLoop json maxDevices fuel (objEnd + 1) (deviceCount + 1)
            else devicesLoop json maxDevices fuel (objEnd + 1) deviceCount
          (next.1, (deviceCount, d) :: next.2)
    else (deviceCount, [])

/-- `SpotifyClient::getAvailableDevices` (lines 202-254): on a
non-success device-list outcome return 0 with no writes; otherwise
locate the `"devices"` array and run the scanning loop from just past
its opening bracket. -/
def getAvailableDevices (result : HttpResult) (maxDevices : Nat) :
    Nat × List (Nat × SpotifyDevice) :=
  if !result.isSuccess then (0, [])
  else
    let json := result.payload
    match subIndexOf json "\"devices\"".data with
    | none => (0, [])
    | some devicesStart =>
      match charIndexOfFrom json '[' devicesStart with
      | none => (0, [])
      | some arrayStart =>
        devicesLoop json maxDevices (json.length + 1) (arrayStart + 1) 0

/-! ## Application state machine (src/main.cpp) -/

/-- `AppState` (main.cpp lines 35-50). -/
inductive AppState where
  | BOOT
  | WIFI_CONNECTING
  | WIFI_CONFIG_PORTAL
  | WIFI_CONNECTED
  | SPOTIFY_INITIALIZING
  | IDLE
  | NFC_DETECTED
  | NFC_READING
  | NFC_PROCESSING
  | PLAYBACK_SUCCESS
  | PLAYBACK_FAILED
  | ERROR_RECOVERY
  | WIFI_RECONNECTING
deriving Repr, DecidableEq

/-- The state-machine globals of main.cpp (lines 74-78). -/
structure MachineState where
  currentState : AppState
  previousState : AppState
  stateEntryTime : Nat
deriving Repr, DecidableEq

/-- `changeState` (main.cpp lines 192-203): a no-op when the requested
state is already current; otherwise record the previous state, switch,
and stamp the entry time with `millis()` (`now`). -/
def changeState (m : MachineState) (newState : AppState) (now : Nat) : MachineState :=
  if newState = m.currentState then m
  else
    { currentState := newState
      previousState := m.currentState
      stateEntryTime := now }

/-- Inputs of one `handleSpotifyInitializing` tick: the current
`millis()` reading, whether `spotify.begin()` would succeed, and
whether `spotify.hasCredentials()` holds. -/
structure InitContext where
  now : Nat
  beginSucceeds : Bool
  credentialsPresent : Bool
deriving Repr, DecidableEq

/-- The variables `handleSpotifyInitializing` touches: its two
function-local statics, the global `spotifyConnected` flag, and the
machine state. -/
structure InitState where
  initStarted : Bool
  initStartTime : Nat
  spotifyConnected : Bool
  machine : MachineState
deriving Repr, DecidableEq

/-- `handleSpotifyInitializing` (main.cpp lines 330-369): start the
phase on first entry; on timeout
(`millis() - initStartTime > SPOTIFY_INIT_TIMEOUT`) clear
`spotifyConnected` and go to IDLE; otherwise attempt `spotify.begin()`
and on success go to IDLE connected; on failure go to IDLE only when
credentials are absent, else keep trying. -/
def handleSpotifyInitializing (ctx : InitContext) (s : InitState) : InitState :=
  let s := if !s.initStarted then { s with initStarted := true, initStartTime := ctx.now } else s
  if elapsed32 ctx.now s.initStartTime > SPOTIFY_INIT_TIMEOUT then
    { s with
      spotifyConnected := false
      initStarted := false
      machine := changeState s.machine AppState.IDLE ctx.now }
  else if ctx.beginSucceeds then
    { s with
      spotifyConnected := true
      initStarted := false
      machine := changeState s.machine AppState.IDLE ctx.now }
  else if !ctx.credentialsPresent then
    { s with
      spotifyConnected := false
      initStarted := false
      machine := changeState s.machine AppState.IDLE ctx.now }
  else s

/-- Inputs of one `handleIdleState` tick: the current `millis()`
reading and whether `nfcReader.isNewCardPresent()` reports a card. -/
structure IdleContext where
  now : Nat
  cardPresent : Bool
deriving Repr, DecidableEq

/-- The variables `handleIdleState` touches: its function-local static
`idleEntered`, the global `lastNfcCheck`, and the machine state. -/
structure IdleState where
  idleEntered : Bool
  lastNfcCheck : Nat
  machine : MachineState
deriving Repr, DecidableEq

/-- `handleIdleState` (main.cpp lines 371-393): render the idle
feedback on first entry; then, only when
`millis() - lastNfcCheck >= NFC_DEBOUNCE_TIME` and a card is present,
stamp `lastNfcCheck` with the acceptance time and transition to
NFC_DETECTED. -/
def handleIdleState (ctx : IdleContext) (s : IdleState) : IdleState :=
  let s := if !s.idleEntered then { s with idleEntered := true } else s
  if NFC_DEBOUNCE_TIME ≤ elapsed32 ctx.now s.lastNfcCheck then
    if ctx.cardPresent then
      { s with
        lastNfcCheck := ctx.now
        idleEntered := false
        machine := changeState s.machine AppState.NFC_DETECTED ctx.now }
    else s
  else s

/-! ## Spec-side device lookup (for the discovery-refinement claim)

The specification describes `discoverDevice` as an exact match of the
configured name against the names in the device list.  To compare
that description with the code we render a structured device list to
the JSON shape of the upstream API and give the exact-match lookup the
spec's words prescribe. -/

/-- Render one `(name, id)` pair in the device-list JSON shape of the
upstream API (spec §6). -/
def renderDevice (d : String × String) : List Char :=
  ('\x7b' :: ("\"id\":\"" ++ d.2 ++ "\",\"name\":\"" ++ d.1 ++ "\"").data) ++ ['\x7d']

/-- Render a device list as the body of the device-list endpoint. -/
def renderDevices (ds : List (String × String)) : List Char :=
  ('\x7b' :: "\"devices\":[".data) ++
    List.intercalate [','] (ds.map renderDevice) ++ (']' :: ['\x7d'])

/-- Device resolution as the specification words it: an exact match of
the configured name against the names in the device list, yielding
that device's id. -/
def exactNameLookup (name : String) (ds : List (String × String)) : Option String :=
  (ds.find? (fun d => d.1 == name)).map (fun d => d.2)

/-! ## Claims about the HttpOutcome predicates -/

/-- C3 counterexample: the claim says an outcome whose status code is
the transport-failure sentinel 0 is always retryable, but
`HttpResult::shouldRetry` tests `httpCode == -1`, so a status-0
outcome is not retryable. -/
theorem shouldRetry_zero_is_not_retryable :
    HttpResult.shouldRetry { httpCode := 0, payload := [] } = false := by
  decide

/-- C3 (amended): `shouldRetry` holds exactly when the outcome is
rate-limited (429), a server error (500-599), or carries the HTTP
library's transport-error code -1; the code 0 the spec names as the
transport sentinel is not retryable. -/
theorem shouldRetry_characterization (r : HttpResult) :
    r.shouldRetry = true ↔
      (r.httpCode = 429 ∨ (500 ≤ r.httpCode ∧ r.httpCode < 600) ∨ r.httpCode = -1) := by
  simp only [HttpResult.shouldRetry, HttpResult.isRateLimited, HttpResult.isServerError,
    Bool.or_eq_true, Bool.and_eq_true, beq_iff_eq, decide_eq_true_eq]
  omega

/-! ## Claims about credential handling -/

/-- C5: replacing the credentials through `setCredentials` always
leaves the cached access token and the resolved device id empty,
whatever they and the new credential values were. -/
theorem setCredentials_clears_session (st : ClientState)
    (cid cs dn rt : String) :
    (setCredentials st cid cs dn rt).accessToken_ = "" ∧
    (setCredentials st cid cs dn rt).deviceId_ = "" :=
  ⟨rfl, rfl⟩

/-! ## Claims about changeState -/

/-- C9: requesting the state that is already current leaves the whole
machine record — current state, previous state and entry timestamp —
unchanged, and any actual state change stamps the entry time with the
current clock, so the entry time always records the most recent actual
change. -/
theorem changeState_frame (m : MachineState) (s : AppState) (now : Nat) :
    (s = m.currentState → changeState m s now = m) ∧
    (s ≠ m.currentState → (changeState m s now).stateEntryTime = now) := by
  constructor
  · intro h
    simp [changeState, h]
  · intro h
    simp [changeState, h]

/-- C9 witness: the frame property evaluated at a concrete machine
state, once for a self-transition and once for a real transition. -/
theorem changeState_frame_witness :
    (changeState ⟨AppState.IDLE, AppState.BOOT, 7⟩ AppState.IDLE 99 =
      ⟨AppState.IDLE, AppState.BOOT, 7⟩) ∧
    (changeState ⟨AppState.IDLE, AppState.BOOT, 7⟩ AppState.NFC_DETECTED 99).stateEntryTime = 99 := by
  constructor
  · exact (changeState_frame ⟨AppState.IDLE, AppState.BOOT, 7⟩ AppState.IDLE 99).1 rfl
  · exact (changeState_frame ⟨AppState.IDLE, AppState.BOOT, 7⟩ AppState.NFC_DETECTED 99).2
      (by decide)

/-! ## Claims about playUri -/

/-- C1 counterexample: with a 404 first outcome and a failing
discovery (device-list GET answers 500), `playUri` issues no retried
play call at all — one play call total — where the claim asserts the
retry is issued even when discovery fails. -/
theorem playUri_404_failed_discovery_skips_retry :
    (HttpResult.isNotFound { httpCode := 404, payload := [] } = true) ∧
    ((discoverDevice ⟨"", "", "", "", "", ""⟩ { httpCode := 500, payload := [] }).1 = false) ∧
    ((playUri ⟨"", "", "", "", "", ""⟩
      { firstPlay := { httpCode := 404, payload := [] }
        devicesResult := { httpCode := 500, payload := [] }
        tokenResult := { httpCode := 200, payload := [] }
        retryPlay := { httpCode := 200, payload := [] }
        shuffleResult := { httpCode := 200, payload := [] } }).2.2.playCalls = 1) := by
  refine ⟨by decide, by decide, ?_⟩
  decide

/-- C1 (amended): on a 404 first outcome `playUri` runs discovery
exactly once, and issues the retried play call exactly when that
discovery succeeds; when discovery fails the 404 outcome stands with
no second play call. -/
theorem playUri_404_recovery (st : ClientState) (env : PlayEnv)
    (h : env.firstPlay.isNotFound = true) :
    (playUri st env).2.2.discoverCalls = 1 ∧
    (playUri st env).2.2.playCalls =
      (if (discoverDevice st env.devicesResult).1 then 2 else 1) := by
  simp only [playUri, playUriFinish, h, if_true]
  cases hd : (discoverDevice st env.devicesResult).1 <;> simp [hd] <;> split <;>
    exact ⟨rfl, rfl⟩

/-- C1 witness: the amended recovery property evaluated on a run whose
first play call answers 404 and whose discovery fails. -/
theorem playUri_404_recovery_witness :
    (playUri ⟨"", "", "", "", "", ""⟩
      { firstPlay := { httpCode := 404, payload := [] }
        devicesResult := { httpCode := 503, payload := [] }
        tokenResult := { httpCode := 200, payload := [] }
        retryPlay := { httpCode := 200, payload := [] }
        shuffleResult := { httpCode := 200, payload := [] } }).2.2.discoverCalls = 1 ∧
    (playUri ⟨"", "", "", "", "", ""⟩
      { firstPlay := { httpCode := 404, payload := [] }
        devicesResult := { httpCode := 503, payload := [] }
        tokenResult := { httpCode := 200, payload := [] }
        retryPlay := { httpCode := 200, payload := [] }
        shuffleResult := { httpCode := 200, payload := [] } }).2.2.playCalls =
      (if (discoverDevice ⟨"", "", "", "", "", ""⟩ { httpCode := 503, payload := [] }).1
        then 2 else 1) :=
  playUri_404_recovery ⟨"", "", "", "", "", ""⟩
    { firstPlay := { httpCode := 404, payload := [] }
      devicesResult := { httpCode := 503, payload := [] }
      tokenResult := { httpCode := 200, payload := [] }
      retryPlay := { httpCode := 200, payload := [] }
      shuffleResult := { httpCode := 200, payload := [] } } (by decide)

/-- C7: `playUri` returns true exactly when the final (possibly
once-retried) play outcome is a success; it issues the shuffle call
exactly once on success and never otherwise; and the shuffle outcome
has no influence on the returned value. -/
theorem playUri_success_shuffle (st : ClientState) (env : PlayEnv) :
    (playUri st env).1 = (playUriFinalOutcome st env).isSuccess ∧
    (playUri st env).2.2.shuffleCalls =
      (if (playUriFinalOutcome st env).isSuccess then 1 else 0) ∧
    (∀ s, (playUri st { env with shuffleResult := s }).1 = (playUri st env).1) := by
  simp only [playUri, playUriFinalOutcome, playUriFinish]
  split_ifs <;> simp_all

/-! ## Claims about device discovery -/

/-- C6 counterexample: with configured name "Echo" and a device list
whose only device is named "Echo Dot", the exact-match lookup the
claim describes finds nothing, yet `extractDeviceId` matches "Echo" as
a substring of "Echo Dot" and resolves that device's id, so
`discoverDevice` succeeds where the claim requires it to fail. -/
theorem discoverDevice_not_exact_match :
    exactNameLookup "Echo" [("Echo Dot", "dot123")] = none ∧
    extractDeviceId "Echo".data (renderDevices [("Echo Dot", "dot123")]) = "dot123".data ∧
    (discoverDevice ⟨"", "", "", "", "Echo", ""⟩
      { httpCode := 200, payload := renderDevices [("Echo Dot", "dot123")] }).1 = true := by
  refine ⟨by decide, by decide, by decide⟩

/-- C6 (amended): `discoverDevice` searches for the configured device
name as a raw substring of the response body, not as an exact match
against the names in the device list; when the name occurs nowhere in
the body as a substring, the cached id is cleared and discovery
returns false.  A substring hit may resolve a device whose name
merely contains the configured name. -/
theorem discoverDevice_substring_absent (st : ClientState) (r : HttpResult)
    (hs : r.isSuccess = true)
    (h : subIndexOf r.payload st.deviceName_.data = none) :
    (discoverDevice st r).1 = false ∧ (discoverDevice st r).2.deviceId_ = "" := by
  simp [discoverDevice, hs, extractDeviceId, h]

/-- C6 witness: a successful device-list response whose body does not
contain the configured name "Nope" makes discovery fail with a cleared
id. -/
theorem discoverDevice_substring_absent_witness :
    (discoverDevice ⟨"", "", "", "", "Nope", ""⟩
      { httpCode := 200, payload := "\x7b\"devices\":[]\x7d".data }).1 = false ∧
    (discoverDevice ⟨"", "", "", "", "Nope", ""⟩
      { httpCode := 200, payload := "\x7b\"devices\":[]\x7d".data }).2.deviceId_ = "" :=
  discoverDevice_substring_absent ⟨"", "", "", "", "Nope", ""⟩
    { httpCode := 200, payload := "\x7b\"devices\":[]\x7d".data } (by decide) (by decide)

/-! ## Claims about the retry wrapper -/

/-- Helper: the wrapper starting at `attempt` with `remaining` retries
allowed issues at most `remaining + 1` further calls. -/
theorem callApiWithRetryAux_call_bound (outcomes : Nat → HttpResult) :
    ∀ remaining attempt,
      (callApiWithRetryAux outcomes attempt remaining).2 ≤ attempt + remaining + 1 := by
  intro remaining
  induction remaining with
  | zero =>
    intro attempt
    simp [callApiWithRetryAux]
  | succ n ih =>
    intro attempt
    simp only [callApiWithRetryAux]
    split
    · show attempt + 1 ≤ attempt + (n + 1) + 1
      omega
    · have := ih (attempt + 1)
      omega

/-- Helper: when every consulted outcome is non-success and retryable,
the wrapper walks through all attempts and returns the last outcome. -/
theorem callApiWithRetryAux_all_retryable (outcomes : Nat → HttpResult) :
    ∀ remaining attempt,
      (∀ k, attempt ≤ k → k ≤ attempt + remaining →
        (outcomes k).isSuccess = false ∧ (outcomes k).shouldRetry = true) →
      callApiWithRetryAux outcomes attempt remaining =
        (outcomes (attempt + remaining), attempt + remaining + 1) := by
  intro remaining
  induction remaining with
  | zero =>
    intro attempt _
    simp [callApiWithRetryAux]
  | succ n ih =>
    intro attempt h
    have hcur := h attempt (Nat.le_refl _) (Nat.le_add_right _ _)
    simp only [callApiWithRetryAux, hcur.1, hcur.2]
    rw [if_neg (by simp [hcur.1, hcur.2])]
    have harith : attempt + (n + 1) = attempt + 1 + n := by omega
    rw [harith]
    exact ih (attempt + 1) (by
      intro k hk1 hk2
      exact h k (by omega) (by omega))

/-- C2: with `max_retries = N` the retry wrapper issues at most `N+1`
underlying calls, and when every outcome it can consult is non-success
and retryable it returns the outcome of the last (`N`-th) call
unchanged, having issued exactly `N+1` calls. -/
theorem callApiWithRetry_bound_and_last (outcomes : Nat → HttpResult) (N : Nat) :
    (callApiWithRetry outcomes N).2 ≤ N + 1 ∧
    ((∀ k, k ≤ N → (outcomes k).isSuccess = false ∧ (outcomes k).shouldRetry = true) →
      callApiWithRetry outcomes N = (outcomes N, N + 1)) := by
  constructor
  · have := callApiWithRetryAux_call_bound outcomes N 0
    simpa [callApiWithRetry] using this
  · intro h
    have := callApiWithRetryAux_all_retryable outcomes N 0 (by
      intro k hk1 hk2
      exact h k (by omega))
    simpa [callApiWithRetry] using this

/-- C2 witness: the wrapper with two retries over a constantly-503
outcome stream issues three calls and returns the third 503. -/
theorem callApiWithRetry_bound_and_last_witness :
    (callApiWithRetry (fun _ => { httpCode := 503, payload := [] }) 2).2 ≤ 3 ∧
    callApiWithRetry (fun _ => { httpCode := 503, payload := [] }) 2 =
      ({ httpCode := 503, payload := [] }, 3) := by
  have h := callApiWithRetry_bound_and_last (fun _ => { httpCode := 503, payload := [] }) 2
  exact ⟨h.1, h.2 (fun k _ => by constructor <;> decide)⟩

/-! ## Claims about the state handlers -/

/-- Helper: `changeState` always lands in the requested state, whether
or not it was already current. -/
theorem changeState_currentState (m : MachineState) (s : AppState) (now : Nat) :
    (changeState m s now).currentState = s := by
  simp only [changeState]
  split
  · next h => exact h.symm
  · rfl

/-- C4 counterexample: in SPOTIFY_INITIALIZING with credentials
present, `begin()` failing, and the 30 s timeout elapsed
(`now = 30001`, `initStartTime = 0`), the handler transitions to IDLE,
not to ERROR_RECOVERY as the claim asserts. -/
theorem spotifyInit_timeout_not_error_recovery :
    (handleSpotifyInitializing ⟨30001, false, true⟩
      ⟨true, 0, false, ⟨AppState.SPOTIFY_INITIALIZING, AppState.WIFI_CONNECTED, 0⟩⟩
      ).machine.currentState = AppState.IDLE ∧
    (handleSpotifyInitializing ⟨30001, false, true⟩
      ⟨true, 0, false, ⟨AppState.SPOTIFY_INITIALIZING, AppState.WIFI_CONNECTED, 0⟩⟩
      ).machine.currentState ≠ AppState.ERROR_RECOVERY := by
  constructor
  · decide
  · decide

/-- C4 (amended): once the initialization phase is running, when the
timeout elapses without success the handler transitions to IDLE in the
degraded mode — `spotifyConnected` cleared and the phase flag reset —
regardless of whether credentials are present; ERROR_RECOVERY is never
entered from the initialization timeout. -/
theorem spotifyInit_timeout_degrades_to_idle (ctx : InitContext) (s : InitState)
    (hst : s.initStarted = true)
    (helapsed : SPOTIFY_INIT_TIMEOUT < elapsed32 ctx.now s.initStartTime) :
    (handleSpotifyInitializing ctx s).machine.currentState = AppState.IDLE ∧
    (handleSpotifyInitializing ctx s).spotifyConnected = false ∧
    (handleSpotifyInitializing ctx s).initStarted = false := by
  simp only [handleSpotifyInitializing, hst, Bool.not_true, Bool.false_eq_true, if_false]
  rw [if_pos helapsed]
  exact ⟨changeState_currentState _ _ _, rfl, rfl⟩

/-- C4 witness: the degraded-idle transition evaluated at the timeout
instant with credentials present and a failing `begin()`. -/
theorem spotifyInit_timeout_degrades_to_idle_witness :
    (handleSpotifyInitializing ⟨30001, false, true⟩
      ⟨true, 0, false, ⟨AppState.SPOTIFY_INITIALIZING, AppState.WIFI_CONNECTED, 0⟩⟩
      ).machine.currentState = AppState.IDLE ∧
    (handleSpotifyInitializing ⟨30001, false, true⟩
      ⟨true, 0, false, ⟨AppState.SPOTIFY_INITIALIZING, AppState.WIFI_CONNECTED, 0⟩⟩
      ).spotifyConnected = false ∧
    (handleSpotifyInitializing ⟨30001, false, true⟩
      ⟨true, 0, false, ⟨AppState.SPOTIFY_INITIALIZING, AppState.WIFI_CONNECTED, 0⟩⟩
      ).initStarted = false :=
  spotifyInit_timeout_degrades_to_idle ⟨30001, false, true⟩
    ⟨true, 0, false, ⟨AppState.SPOTIFY_INITIALIZING, AppState.WIFI_CONNECTED, 0⟩⟩
    rfl (by decide)

/-- C8: from IDLE, the tag-detected transition is only taken when at
least `NFC_DEBOUNCE_TIME` has elapsed (in 32-bit `millis()`
arithmetic) since `lastNfcCheck`, the stamp of the previous accepted
detection, and an accepted detection re-stamps `lastNfcCheck` with its
own time. -/
theorem idle_debounce (ctx : IdleContext) (s : IdleState)
    (hidle : s.machine.currentState = AppState.IDLE)
    (htrans : (handleIdleState ctx s).machine.currentState = AppState.NFC_DETECTED) :
    NFC_DEBOUNCE_TIME ≤ elapsed32 ctx.now s.lastNfcCheck ∧
    (handleIdleState ctx s).lastNfcCheck = ctx.now := by
  simp only [handleIdleState] at htrans ⊢
  by_cases hdb : NFC_DEBOUNCE_TIME ≤ elapsed32 ctx.now s.lastNfcCheck
  · by_cases hc : ctx.cardPresent = true
    · cases hie : s.idleEntered <;> simp [hie, hdb, hc] at htrans ⊢
    · cases hie : s.idleEntered <;> simp [hie, hdb, hc, hidle] at htrans
  · cases hie : s.idleEntered <;> simp [hie, hdb, hidle] at htrans

/-- C8 witness: the debounce property evaluated on an accepted
detection at `now = 500` with the previous acceptance at 0. -/
theorem idle_debounce_witness :
    NFC_DEBOUNCE_TIME ≤
      elapsed32 500 (⟨true, 0, ⟨AppState.IDLE, AppState.BOOT, 0⟩⟩ : IdleState).lastNfcCheck ∧
    (handleIdleState ⟨500, true⟩
      ⟨true, 0, ⟨AppState.IDLE, AppState.BOOT, 0⟩⟩).lastNfcCheck = 500 :=
  idle_debounce ⟨500, true⟩ ⟨true, 0, ⟨AppState.IDLE, AppState.BOOT, 0⟩⟩ rfl (by decide)

/-! ## Claims about getAvailableDevices -/

/-- Helper: the scanning loop never grows the count beyond
`maxDevices`. -/
theorem devicesLoop_count_le (json : List Char) (maxDevices : Nat) :
    ∀ fuel pos count, count ≤ maxDevices →
      (devicesLoop json maxDevices fuel pos count).1 ≤ maxDevices := by
  intro fuel
  induction fuel with
  | zero =>
    intro pos count h
    simpa [devicesLoop] using h
  | succ n ih =>
    intro pos count h
    simp only [devicesLoop]
    split
    · next hlt =>
      cases h1 : charIndexOfFrom json '\x7b' pos with
      | none => simpa [h1] using h
      | some objStart =>
        cases h2 : charIndexOfFrom json '\x7d' objStart with
        | none => simpa [h1, h2] using h
        | some objEnd =>
          simp only [h1, h2]
          by_cases hid : (parseDeviceObj ((json.take (objEnd + 1)).drop objStart)).id = []
          · simpa [hid] using ih (objEnd + 1) count h
          · simpa [hid] using ih (objEnd + 1) (count + 1) (by omega)
    · exact h

/-- Helper: every write the loop logs targets a slot at or above the
running count and strictly below `maxDevices`. -/
theorem devicesLoop_write_indices (json : List Char) (maxDevices : Nat) :
    ∀ fuel pos count, ∀ w ∈ (devicesLoop json maxDevices fuel pos count).2,
      count ≤ w.1 ∧ w.1 < maxDevices := by
  intro fuel
  induction fuel with
  | zero =>
    intro pos count w hw
    simp [devicesLoop] at hw
  | succ n ih =>
    intro pos count w hw
    simp only [devicesLoop] at hw
    split at hw
    · next hlt =>
      cases h1 : charIndexOfFrom json '\x7b' pos with
      | none => simp [h1] at hw
      | some objStart =>
        cases h2 : charIndexOfFrom json '\x7d' objStart with
        | none => simp [h1, h2] at hw
        | some objEnd =>
          simp only [h1, h2, List.mem_cons] at hw
          rcases hw with hw | hw
          · subst hw
            exact ⟨Nat.le_refl _, hlt⟩
          · by_cases hid : (parseDeviceObj ((json.take (objEnd + 1)).drop objStart)).id = []
            · have hmem : w ∈ (devicesLoop json maxDevices n (objEnd + 1) count).2 := by
                simpa [hid] using hw
              exact ih (objEnd + 1) count w hmem
            · have hmem : w ∈ (devicesLoop json maxDevices n (objEnd + 1) (count + 1)).2 := by
                simpa [hid] using hw
              have := ih (objEnd + 1) (count + 1) w hmem
              omega
    · simp at hw

/-- Helper: the final count equals the initial count plus the number
of logged writes whose parsed id is non-empty. -/
theorem devicesLoop_count_eq (json : List Char) (maxDevices : Nat) :
    ∀ fuel pos count,
      (devicesLoop json maxDevices fuel pos count).1 =
        count + ((devicesLoop json maxDevices fuel pos count).2.filter
          (fun w => decide (w.2.id ≠ []))).length := by
  intro fuel
  induction fuel with
  | zero =>
    intro pos count
    simp [devicesLoop]
  | succ n ih =>
    intro pos count
    simp only [devicesLoop]
    split
    · cases h1 : charIndexOfFrom json '\x7b' pos with
      | none => simp [h1]
      | some objStart =>
        cases h2 : charIndexOfFrom json '\x7d' objStart with
        | none => simp [h1, h2]
        | some objEnd =>
          simp only [h1, h2]
          by_cases hid : (parseDeviceObj ((json.take (objEnd + 1)).drop objStart)).id = []
          · simpa [hid] using ih (objEnd + 1) count
          · have hih := ih (objEnd + 1) (count + 1)
            simp only [ne_eq, decide_not] at hih
            simp [hid]
            omega
    · simp

/-- C10: for every device-list outcome and positive bound,
`getAvailableDevices` returns a count between 0 and `maxDevices`,
writes only to slots with index below `maxDevices`, counts exactly the
parsed devices whose id is non-empty, and returns 0 with no writes
when the underlying call is not a success. -/
theorem getAvailableDevices_safe (r : HttpResult) (maxDevices : Nat)
    (hmax : 0 < maxDevices) :
    (getAvailableDevices r maxDevices).1 ≤ maxDevices ∧
    (∀ w ∈ (getAvailableDevices r maxDevices).2, w.1 < maxDevices) ∧
    (getAvailableDevices r maxDevices).1 =
      ((getAvailableDevices r maxDevices).2.filter
        (fun w => decide (w.2.id ≠ []))).length ∧
    (r.isSuccess = false → getAvailableDevices r maxDevices = (0, [])) := by
  cases hrs : r.isSuccess with
  | false =>
    simp [getAvailableDevices, hrs]
  | true =>
    simp only [getAvailableDevices, hrs, Bool.not_true, Bool.false_eq_true, if_false]
    cases h1 : subIndexOf r.payload "\"devices\"".data with
    | none => simp [h1, hrs]
    | some devicesStart =>
      cases h2 : charIndexOfFrom r.payload '[' devicesStart with
      | none => simp [h1, h2, hrs]
      | some arrayStart =>
        simp only [h1, h2]
        refine ⟨devicesLoop_count_le _ _ _ _ _ (Nat.zero_le _),
          fun w hw => (devicesLoop_write_indices _ _ _ _ _ w hw).2,
          ?_, by simp [hrs]⟩
        simpa using devicesLoop_count_eq r.payload maxDevices (r.payload.length + 1)
          (arrayStart + 1) 0

/-- C10 witness: a successful response holding one device with a
non-empty id and one with an empty id, under bound 10: the count is 1
yet both parsed objects were written, to slots 0 and 1. -/
theorem getAvailableDevices_safe_witness :
    (getAvailableDevices
      { httpCode := 200
        payload := ("\x7b\"devices\":[\x7b\"id\":\"a1\",\"name\":\"X\"\x7d," ++
          "\x7b\"id\":\"\",\"name\":\"Y\"\x7d]\x7d").data } 10).1 ≤ 10 ∧
    (getAvailableDevices
      { httpCode := 200
        payload := ("\x7b\"devices\":[\x7b\"id\":\"a1\",\"name\":\"X\"\x7d," ++
          "\x7b\"id\":\"\",\"name\":\"Y\"\x7d]\x7d").data } 10).1 =
      ((getAvailableDevices
        { httpCode := 200
          payload := ("\x7b\"devices\":[\x7b\"id\":\"a1\",\"name\":\"X\"\x7d," ++
            "\x7b\"id\":\"\",\"name\":\"Y\"\x7d]\x7d").data } 10).2.filter
        (fun w => decide (w.2.id ≠ []))).length :=
  ⟨(getAvailableDevices_safe
      { httpCode := 200
        payload := ("\x7b\"devices\":[\x7b\"id\":\"a1\",\"name\":\"X\"\x7d," ++
          "\x7b\"id\":\"\",\"name\":\"Y\"\x7d]\x7d").data } 10 (by decide)).1,
    (getAvailableDevices_safe
      { httpCode := 200
        payload := ("\x7b\"devices\":[\x7b\"id\":\"a1\",\"name\":\"X\"\x7d," ++
          "\x7b\"id\":\"\",\"name\":\"Y\"\x7d]\x7d").data } 10 (by decide)).2.2.1⟩

end ESP8266SpotifyPlayer
